import Mathlib

/-!
# Barbershop scheduling API — verification of the availability/reservation core

Shallow embedding of `src/barber_api_production.py` (Flask + SQL). The SQL
rows become Lean structures, the database becomes an explicit `Store`, and
each endpoint's handler becomes a pure function from the store and the
request data to a result (and, for writers, an updated store). The SQLite
branch is the one embedded (the PostgreSQL branch runs the same queries with
a different placeholder syntax). Metadata columns that no handler reads
(`price`, `created_at`, `updated_at`, `password_hash`) are elided.

Python `datetime` values are embedded as a Gregorian calendar record;
`timedelta` addition goes through the standard civil-days conversion.
`datetime.fromisoformat` is modelled on the `YYYY-MM-DDTHH:MM:SS` shape with
an optional `±HH:MM` offset, which is what this API sends it. SQL `TEXT`
comparison (`<=` / `>=` on time-of-day strings) is binary/codepoint
comparison, embedded as `sqliteLe`.
-/

/-! ## Time utilities -/

/-- The ASCII digit character for `n < 10`. -/
def digitChar (n : Nat) : Char := Char.ofNat (48 + n)

/-- Two-digit zero-padded decimal (Python `%02d` for values below 100). -/
def pad2 (n : Nat) : String := ⟨[digitChar (n / 10 % 10), digitChar (n % 10)]⟩

/-- Four-digit zero-padded decimal (Python `%04d` for values below 10000). -/
def pad4 (n : Nat) : String :=
  ⟨[digitChar (n / 1000 % 10), digitChar (n / 100 % 10),
    digitChar (n / 10 % 10), digitChar (n % 10)]⟩

/-- Naive Python `datetime`: a Gregorian calendar date plus a time of day. -/
structure NaiveDateTime where
  year : Nat
  month : Nat
  day : Nat
  hour : Nat
  minute : Nat
  second : Nat
deriving DecidableEq

/-- Days from 0000-03-01-based civil reckoning to the given date; the value
for 1970-01-01 is 719468 (the standard days-from-civil computation,
restricted to years ≥ 1, where it needs no negative numbers). -/
def civilDays (y m d : Nat) : Nat :=
  let y1 := if m ≤ 2 then y - 1 else y
  let mp := (m + 9) % 12
  365 * y1 + y1 / 4 - y1 / 100 + y1 / 400 + (153 * mp + 2) / 5 + d - 1

/-- Inverse of `civilDays`: the (year, month, day) lying the given number of
days after the civil epoch. -/
def civilFromDays (z : Nat) : Nat × Nat × Nat :=
  let era := z / 146097
  let doe := z % 146097
  let yoe := (doe - doe / 1460 + doe / 36524 - doe / 146096) / 365
  let y1 := yoe + era * 400
  let doy := doe - (365 * yoe + yoe / 4 - yoe / 100)
  let mp := (5 * doy + 2) / 153
  let d := doy - (153 * mp + 2) / 5 + 1
  let m := if mp < 10 then mp + 3 else mp - 9
  if m ≤ 2 then (y1 + 1, m, d) else (y1, m, d)

/-- Python `datetime.weekday()`: Monday = 0 .. Sunday = 6.
1970-01-01 (`civilDays = 719468`, `719468 % 7 = 1`) was a Thursday (3). -/
def pyWeekday (dt : NaiveDateTime) : Nat :=
  (civilDays dt.year dt.month dt.day + 2) % 7

/-- Python `dt + timedelta(minutes := m)` on a naive datetime: minute-level
arithmetic with calendar carry; the seconds field is unchanged. -/
def addMinutes (dt : NaiveDateTime) (m : Nat) : NaiveDateTime :=
  let total := civilDays dt.year dt.month dt.day * 1440 + dt.hour * 60 + dt.minute + m
  let c := civilFromDays (total / 1440)
  ⟨c.1, c.2.1, c.2.2, total % 1440 / 60, total % 1440 % 60, dt.second⟩

/-- Python `dt.strftime('%H:%M')`. -/
def timeOfDayStr (dt : NaiveDateTime) : String :=
  pad2 dt.hour ++ ":" ++ pad2 dt.minute

/-- Python `dt.strftime('%Y-%m-%d')`. -/
def dateStr (dt : NaiveDateTime) : String :=
  pad4 dt.year ++ "-" ++ pad2 dt.month ++ "-" ++ pad2 dt.day

/-- Python `dt.isoformat()` of a naive datetime with zero microseconds. -/
def isoformatNaive (dt : NaiveDateTime) : String :=
  dateStr dt ++ "T" ++ pad2 dt.hour ++ ":" ++ pad2 dt.minute ++ ":" ++ pad2 dt.second

/-- A possibly timezone-aware Python `datetime`: the clock-face fields plus
an optional fixed UTC offset in minutes (`none` = naive). -/
structure PyDateTime where
  dt : NaiveDateTime
  tz : Option Int
deriving DecidableEq

/-- How Python formats a fixed UTC offset inside `isoformat()`: `±HH:MM`. -/
def tzSuffix : Option Int → String
  | none => ""
  | some off =>
      (if off < 0 then "-" else "+") ++ pad2 (off.natAbs / 60) ++ ":" ++ pad2 (off.natAbs % 60)

/-- Python `dt.isoformat()`: the naive part, then the offset when aware. -/
def pyIsoformat (p : PyDateTime) : String := isoformatNaive p.dt ++ tzSuffix p.tz

/-- `timedelta` addition on a possibly aware datetime: the clock face moves,
the attached offset is untouched (no conversion). -/
def pyAddMinutes (p : PyDateTime) (m : Nat) : PyDateTime := ⟨addMinutes p.dt m, p.tz⟩

/-- Value of an ASCII digit character. -/
def digitVal (c : Char) : Option Nat :=
  if 48 ≤ c.toNat ∧ c.toNat ≤ 57 then some (c.toNat - 48) else none

def twoDigits (a b : Char) : Option Nat := do
  let x ← digitVal a
  let y ← digitVal b
  pure (10 * x + y)

def fourDigits (a b c d : Char) : Option Nat := do
  let x ← twoDigits a b
  let y ← twoDigits c d
  pure (100 * x + y)

def isLeapYear (y : Nat) : Bool := (y % 4 == 0 && y % 100 != 0) || y % 400 == 0

def daysInMonth (y m : Nat) : Nat :=
  if m = 2 then (if isLeapYear y then 29 else 28)
  else if m = 4 ∨ m = 6 ∨ m = 9 ∨ m = 11 then 30
  else 31

/-- A calendar-valid datetime, or `none` (Python raises `ValueError`). -/
def mkNaive (y mo d h mi s : Nat) : Option NaiveDateTime :=
  if 1 ≤ y ∧ 1 ≤ mo ∧ mo ≤ 12 ∧ 1 ≤ d ∧ d ≤ daysInMonth y mo ∧ h ≤ 23 ∧ mi ≤ 59 ∧ s ≤ 59
  then some ⟨y, mo, d, h, mi, s⟩ else none

def parseCore (y1 y2 y3 y4 mo1 mo2 d1 d2 h1 h2 mi1 mi2 s1 s2 : Char) : Option NaiveDateTime := do
  let y ← fourDigits y1 y2 y3 y4
  let mo ← twoDigits mo1 mo2
  let d ← twoDigits d1 d2
  let h ← twoDigits h1 h2
  let mi ← twoDigits mi1 mi2
  let s ← twoDigits s1 s2
  mkNaive y mo d h mi s

def parseOffset (sign oh1 oh2 om1 om2 : Char) : Option Int := do
  let oh ← twoDigits oh1 oh2
  let om ← twoDigits om1 om2
  if oh ≤ 23 ∧ om ≤ 59 then
    if sign = '+' then pure (Int.ofNat (oh * 60 + om))
    else if sign = '-' then pure (-(Int.ofNat (oh * 60 + om)))
    else none
  else none

/-- Models Python `datetime.fromisoformat` on the shapes this API feeds it:
`YYYY-MM-DDTHH:MM:SS`, optionally followed by a `±HH:MM` UTC offset. A bare
`Z` is rejected (as in CPython ≤ 3.10); both call sites in the source replace
`'Z'` before parsing. -/
def pyFromIsoformat (s : String) : Option PyDateTime :=
  match s.data with
  | [y1, y2, y3, y4, '-', mo1, mo2, '-', d1, d2, 'T', h1, h2, ':', mi1, mi2, ':', s1, s2] => do
      let dt ← parseCore y1 y2 y3 y4 mo1 mo2 d1 d2 h1 h2 mi1 mi2 s1 s2
      pure ⟨dt, none⟩
  | [y1, y2, y3, y4, '-', mo1, mo2, '-', d1, d2, 'T', h1, h2, ':', mi1, mi2, ':', s1, s2,
     sg, oh1, oh2, ':', om1, om2] => do
      let dt ← parseCore y1 y2 y3 y4 mo1 mo2 d1 d2 h1 h2 mi1 mi2 s1 s2
      let off ← parseOffset sg oh1 oh2 om1 om2
      pure ⟨dt, some off⟩
  | _ => none

/-- Python `s.replace('Z', '')`: every `'Z'` removed. -/
def stripZ (s : String) : String := ⟨s.data.filter (fun c => !(c == 'Z'))⟩

/-- SQLite/PostgreSQL `TEXT` comparison `a <= b` (binary collation); on the
zero-padded ASCII strings this API stores, byte order = codepoint order. -/
def charListLe : List Char → List Char → Bool
  | [], _ => true
  | _ :: _, [] => false
  | c :: cs, d :: ds =>
      if c.toNat < d.toNat then true
      else if c.toNat = d.toNat then charListLe cs ds
      else false

def sqliteLe (a b : String) : Bool := charListLe a.data b.data

/-- Strict `TEXT` comparison `a < b`. -/
def charListLt : List Char → List Char → Bool
  | [], [] => false
  | [], _ :: _ => true
  | _ :: _, [] => false
  | c :: cs, d :: ds =>
      if c.toNat < d.toNat then true
      else if c.toNat = d.toNat then charListLt cs ds
      else false

def sqliteLt (a b : String) : Bool := charListLt a.data b.data

/-! ## Data model (the SQL schema, `init_database`) -/

/-- A `services` row (the `price REAL` and timestamp metadata columns,
which no embedded handler reads, are elided). -/
structure Service where
  id : String
  name : String
  description : String
  duration_minutes : Nat
  category : String
  is_active : Bool
deriving DecidableEq

/-- A `barbers` row (credential and timestamp columns elided). -/
structure Barber where
  id : String
  name : String
  email : String
  phone : Option String
  bio : Option String
  is_active : Bool
deriving DecidableEq

/-- A `barber_availability` row. `is_available`/`is_active` are the 0/1
INTEGER flags; the queries test `= 1`. -/
structure AvailabilityWindow where
  id : String
  barber_id : String
  day_of_week : Option Int
  specific_date : Option String
  start_time : String
  end_time : String
  is_available : Bool
  is_active : Bool
deriving DecidableEq

/-- A `barber_services` row (the barber⇄service association). -/
structure BarberService where
  barber_id : String
  service_id : String
deriving DecidableEq

/-- A `reservations` row; columns the INSERT leaves to their defaults are
`none` / `some "PENDING"`. -/
structure Reservation where
  id : String
  customer_name : String
  customer_email : Option String
  customer_phone : Option String
  service_id : String
  barber_id : String
  start_time : String
  end_time : String
  status : Option String
  notes : Option String
deriving DecidableEq

/-- The whole database. -/
structure Store where
  services : List Service
  barbers : List Barber
  barber_availability : List AvailabilityWindow
  barber_services : List BarberService
  reservations : List Reservation
deriving DecidableEq

/-- The error outcomes the handlers map to HTTP 400 / 404 / 500. -/
inductive ApiError where
  | validationError : ApiError
  | notFound : String → ApiError
  | internal : ApiError
deriving DecidableEq

/-! ## Operations -/

/-- The WHERE clause of the `/api/available-barbers` query, as a predicate on
one `barbers` row: `b.is_active = 1 AND ba.is_active = 1 AND
ba.is_available = 1 AND bs.service_id = ? AND ((ba.specific_date = ? AND
ba.start_time <= ? AND ba.end_time >= ?) OR (ba.specific_date IS NULL AND
ba.day_of_week = ? AND ba.start_time <= ? AND ba.end_time >= ?))`, with the
joins on `barber_id` made explicit (`specific_date = ?` is false on NULL,
per SQL three-valued logic). -/
def availability_where (store : Store) (service_id requested_date : String)
    (day_of_week : Int) (requested_start_time requested_end_time : String)
    (b : Barber) : Bool :=
  b.is_active &&
  (store.barber_availability.any (fun ba =>
    ba.barber_id == b.id && ba.is_active && ba.is_available &&
    ((ba.specific_date == some requested_date &&
        sqliteLe ba.start_time requested_start_time &&
        sqliteLe requested_end_time ba.end_time) ||
     (ba.specific_date == none && ba.day_of_week == some day_of_week &&
        sqliteLe ba.start_time requested_start_time &&
        sqliteLe requested_end_time ba.end_time)))) &&
  (store.barber_services.any (fun bs => bs.barber_id == b.id && bs.service_id == service_id))

/-- `ORDER BY b.name` (binary collation), as an insertion sort. -/
def insertByName (b : Barber) : List Barber → List Barber
  | [] => [b]
  | x :: xs => if sqliteLe b.name x.name then b :: x :: xs else x :: insertByName b xs

def sortByName (l : List Barber) : List Barber := l.foldr insertByName []

/-- `GET /api/available-barbers` (`get_available_barbers`, source lines
616–688), after query-string parsing: the service lookup
(`SELECT duration_minutes FROM services WHERE id = ?` — no `is_active`
filter), the derived slot fields, and the availability query. -/
def get_available_barbers (store : Store) (service_id : String)
    (requested_datetime : NaiveDateTime) : Except ApiError (List Barber) :=
  match store.services.find? (fun s => s.id == service_id) with
  | none => Except.error (ApiError.notFound "Service not found")
  | some service =>
      let end_datetime := addMinutes requested_datetime service.duration_minutes
      let day_of_week : Nat := (pyWeekday requested_datetime + 1) % 7
      let requested_start_time := timeOfDayStr requested_datetime
      let requested_end_time := timeOfDayStr end_datetime
      let requested_date := dateStr requested_datetime
      Except.ok (sortByName (store.barbers.filter
        (availability_where store service_id requested_date (Int.ofNat day_of_week)
          requested_start_time requested_end_time)))

/-- The JSON body of `POST /api/reservations`; `data.get(k)` is `none` when
the key is absent. -/
structure CreateReservationInput where
  customerName : Option String
  serviceId : Option String
  barberId : Option String
  startTime : Option String
deriving DecidableEq

/-- Python truthiness of an optional string: `None` and `''` are falsy. -/
def truthy : Option String → Bool
  | none => false
  | some s => !(s == "")

/-- The denormalized reservation object `create_reservation` returns. -/
structure ReservationView where
  id : String
  customer_name : String
  service_name : String
  barber_name : String
  start_time : String
  end_time : String
  status : String
deriving DecidableEq

/-- `POST /api/reservations` (`create_reservation`, source lines 516–596):
validation by `not all([...])`, service then barber lookup by bare id
(neither checks `is_active`), `fromisoformat(start_time.replace('Z', ''))`
(only the literal `'Z'` is removed; a parse failure lands in the generic
`except` branch, HTTP 500), end time = start + `duration_minutes`, the
INSERT with status `'PENDING'`, and the response view. The generated UUID
is a parameter. -/
def create_reservation (store : Store) (reservation_id : String)
    (input : CreateReservationInput) : Except ApiError ReservationView × Store :=
  if !(truthy input.customerName && truthy input.serviceId &&
       truthy input.barberId && truthy input.startTime) then
    (Except.error ApiError.validationError, store)
  else
    let customer_name := input.customerName.getD ""
    let service_id := input.serviceId.getD ""
    let barber_id := input.barberId.getD ""
    let start_time := input.startTime.getD ""
    match store.services.find? (fun s => s.id == service_id) with
    | none => (Except.error (ApiError.notFound "Service not found"), store)
    | some service =>
        match store.barbers.find? (fun b => b.id == barber_id) with
        | none => (Except.error (ApiError.notFound "Barber not found"), store)
        | some barber =>
            match pyFromIsoformat (stripZ start_time) with
            | none => (Except.error ApiError.internal, store)
            | some start_dt =>
                let end_dt := pyAddMinutes start_dt service.duration_minutes
                let row : Reservation :=
                  { id := reservation_id, customer_name := customer_name,
                    customer_email := none, customer_phone := none,
                    service_id := service_id, barber_id := barber_id,
                    start_time := pyIsoformat start_dt, end_time := pyIsoformat end_dt,
                    status := some "PENDING", notes := none }
                let view : ReservationView :=
                  { id := reservation_id, customer_name := customer_name,
                    service_name := service.name, barber_name := barber.name,
                    start_time := pyIsoformat start_dt, end_time := pyIsoformat end_dt,
                    status := "PENDING" }
                (Except.ok view, { store with reservations := store.reservations ++ [row] })

/-- `PATCH /api/reservations/<id>/status` (`update_reservation_status`,
source lines 598–614): `UPDATE reservations SET status = ? WHERE id = ?`,
then unconditional success — no row-count check, no transition rule. -/
def update_reservation_status (store : Store) (reservation_id : String)
    (status : Option String) : Except ApiError Unit × Store :=
  let updated := store.reservations.map
    (fun r => if r.id == reservation_id then { r with status := status } else r)
  (Except.ok (), { store with reservations := updated })

/-- `DELETE /api/barber/availability/<id>` (`delete_availability`, source
lines 455–468): `DELETE FROM barber_availability WHERE id = ?`, then
unconditional success. -/
def delete_availability (store : Store) (availability_id : String) :
    Except ApiError Unit × Store :=
  (Except.ok (),
   { store with barber_availability :=
       store.barber_availability.filter (fun w => !(w.id == availability_id)) })

/-- Follows the spec's words (§4.2.4): barber B is a candidate iff B is
active, B offers the service, and some active availability window W owned by
B has W.available = true and either (W.specificDate = date ∧ W.start ≤
reqStartStr ∧ W.end ≥ reqEndStr) or (W.specificDate unset ∧ W.dayOfWeek =
dow ∧ W.start ≤ reqStartStr ∧ W.end ≥ reqEndStr), where dow, reqStartStr and
reqEndStr are the §4.1 time-utility fields of the requested slot. -/
def specCandidate (store : Store) (serviceId : String) (dt : NaiveDateTime)
    (service : Service) (b : Barber) : Prop :=
  b.is_active = true ∧
  (∃ bs ∈ store.barber_services, bs.barber_id = b.id ∧ bs.service_id = serviceId) ∧
  (∃ w ∈ store.barber_availability, w.barber_id = b.id ∧ w.is_active = true ∧
    w.is_available = true ∧
    ((w.specific_date = some (dateStr dt) ∧
        sqliteLe w.start_time (timeOfDayStr dt) = true ∧
        sqliteLe (timeOfDayStr (addMinutes dt service.duration_minutes)) w.end_time = true) ∨
     (w.specific_date = none ∧
        w.day_of_week = some (Int.ofNat ((pyWeekday dt + 1) % 7)) ∧
        sqliteLe w.start_time (timeOfDayStr dt) = true ∧
        sqliteLe (timeOfDayStr (addMinutes dt service.duration_minutes)) w.end_time = true)))

instance (store : Store) (serviceId : String) (dt : NaiveDateTime)
    (service : Service) (b : Barber) :
    Decidable (specCandidate store serviceId dt service b) := by
  unfold specCandidate
  infer_instance

/-! ## Helper lemmas -/

lemma mem_insertByName (a b : Barber) (l : List Barber) :
    a ∈ insertByName b l ↔ a = b ∨ a ∈ l := by
  induction l with
  | nil => simp [insertByName]
  | cons x xs ih =>
      by_cases h : sqliteLe b.name x.name = true
      · simp [insertByName, h]
      · simp only [insertByName, if_neg h, List.mem_cons, ih]
        tauto

lemma mem_sortByName (a : Barber) (l : List Barber) :
    a ∈ sortByName l ↔ a ∈ l := by
  induction l with
  | nil => simp [sortByName]
  | cons x xs ih =>
      show a ∈ insertByName x (sortByName xs) ↔ _
      rw [mem_insertByName, ih]
      simp

lemma get_available_barbers_ok (store : Store) (service_id : String)
    (dt : NaiveDateTime) (service : Service)
    (hs : store.services.find? (fun s => s.id == service_id) = some service) :
    get_available_barbers store service_id dt =
      Except.ok (sortByName (store.barbers.filter
        (availability_where store service_id (dateStr dt)
          (Int.ofNat ((pyWeekday dt + 1) % 7)) (timeOfDayStr dt)
          (timeOfDayStr (addMinutes dt service.duration_minutes))))) := by
  unfold get_available_barbers
  rw [hs]

lemma availability_where_iff (store : Store) (service_id : String)
    (dt : NaiveDateTime) (service : Service) (b : Barber) :
    availability_where store service_id (dateStr dt)
      (Int.ofNat ((pyWeekday dt + 1) % 7)) (timeOfDayStr dt)
      (timeOfDayStr (addMinutes dt service.duration_minutes)) b = true ↔
    specCandidate store service_id dt service b := by
  simp only [availability_where, specCandidate, Bool.and_eq_true, Bool.or_eq_true,
    List.any_eq_true, beq_iff_eq]
  constructor
  · rintro ⟨⟨hact, ba, hba, hwin⟩, bs, hbs, hids⟩
    refine ⟨hact, ⟨bs, hbs, hids.1, hids.2⟩, ba, hba, ?_⟩
    obtain ⟨⟨hid, hbact⟩, havail⟩ := hwin.1
    refine ⟨hid, hbact, havail, ?_⟩
    rcases hwin.2 with h | h
    · exact Or.inl ⟨h.1.1, h.1.2, h.2⟩
    · rcases h with ⟨⟨⟨hne, hdow⟩, hle⟩, hge⟩
      refine Or.inr ⟨?_, hdow, hle, hge⟩
      cases hsd : ba.specific_date with
      | none => rfl
      | some v => rw [hsd] at hne; simp at hne
  · rintro ⟨hact, ⟨bs, hbs, hbid, hsid⟩, ba, hba, hid, hbact, havail, hmatch⟩
    refine ⟨⟨hact, ba, hba, ⟨⟨hid, hbact⟩, havail⟩, ?_⟩, bs, hbs, hbid, hsid⟩
    rcases hmatch with ⟨hdate, hle, hge⟩ | ⟨hnone, hdow, hle, hge⟩
    · exact Or.inl ⟨⟨hdate, hle⟩, hge⟩
    · exact Or.inr ⟨⟨⟨hnone, hdow⟩, hle⟩, hge⟩

lemma mem_available_iff (store : Store) (service_id : String)
    (dt : NaiveDateTime) (service : Service) (b : Barber)
    (hs : store.services.find? (fun s => s.id == service_id) = some service)
    (hb : b ∈ store.barbers) :
    ∃ l, get_available_barbers store service_id dt = Except.ok l ∧
      (b ∈ l ↔ specCandidate store service_id dt service b) := by
  refine ⟨_, get_available_barbers_ok store service_id dt service hs, ?_⟩
  rw [mem_sortByName, List.mem_filter, availability_where_iff]
  simp [hb]

lemma filter_self_idem {α : Type} (p : α → Bool) (l : List α) :
    (l.filter p).filter p = l.filter p := by
  induction l with
  | nil => rfl
  | cons x xs ih =>
      by_cases h : p x = true
      · simp [List.filter_cons, h, ih]
      · simp [List.filter_cons, h, ih]

lemma map_update_of_no_match (rid : String) (st : Option String)
    (l : List Reservation) (h : ∀ r ∈ l, r.id ≠ rid) :
    l.map (fun r => if r.id == rid then { r with status := st } else r) = l := by
  induction l with
  | nil => rfl
  | cons x xs ih =>
      have hx : (x.id == rid) = false := by
        simpa using h x (List.mem_cons_self x xs)
      simp only [List.map_cons, hx, Bool.false_eq_true, if_false, List.cons.injEq, true_and]
      exact ih (fun r hr => h r (List.mem_cons_of_mem _ hr))

/-! ## Concrete fixtures -/

def c1service : Service := ⟨"s1", "Fade", "Degradado moderno y preciso", 60, "premium", true⟩

def c1barber : Barber := ⟨"b1", "Carlos", "carlos@example.com", none, none, true⟩

/-- A recurring Friday window 09:00–17:00, open and active; it satisfies the
window invariant `start_time < end_time`. -/
def c1window : AvailabilityWindow := ⟨"w1", "b1", some 5, none, "09:00", "17:00", true, true⟩

def c1store : Store := ⟨[c1service], [c1barber], [c1window], [⟨"b1", "s1"⟩], []⟩

/-- 2024-03-01 (a Friday, so `(pyWeekday + 1) % 7 = 5`) at 23:30; with the
60-minute service the slot ends 00:30 the next day. -/
def c1dt : NaiveDateTime := ⟨2024, 3, 1, 23, 30, 0⟩

def c2service : Service := ⟨"s1", "Fade", "Degradado moderno y preciso", 45, "premium", false⟩

def c2store : Store := ⟨[c2service], [], [], [], []⟩

def c2dt : NaiveDateTime := ⟨2024, 3, 1, 10, 0, 0⟩

def c3service : Service := ⟨"s1", "Corte Clásico", "Corte tradicional", 30, "clasico", true⟩

def c3barber : Barber := ⟨"b1", "Ana", "ana@example.com", none, none, true⟩

def c3window : AvailabilityWindow := ⟨"w1", "b1", some 0, none, "09:00", "12:00", true, true⟩

def c3store : Store := ⟨[c3service], [c3barber], [c3window], [⟨"b1", "s1"⟩], []⟩

/-- 2024-03-03 is a Sunday: `(pyWeekday + 1) % 7 = 0`. -/
def c3dt : NaiveDateTime := ⟨2024, 3, 3, 10, 0, 0⟩

/-! ## Claim theorems -/

/-- Claim C1, counterexample: the window 09:00–17:00 satisfies the invariant
`start < end`, the requested slot 2024-03-01T23:30 + 60 min crosses midnight
(its end-of-day string "00:30" is lexicographically below its start "23:30"),
and yet `get_available_barbers` matches the window and yields the barber —
the claim says such a slot yields no candidate from any window. -/
theorem midnight_slot_matches_a_window :
    sqliteLt c1window.start_time c1window.end_time = true ∧
    sqliteLt (timeOfDayStr (addMinutes c1dt c1service.duration_minutes))
      (timeOfDayStr c1dt) = true ∧
    get_available_barbers c1store "s1" c1dt = Except.ok [c1barber] :=
  ⟨rfl, rfl, rfl⟩

/-- Claim C1 (amended): a midnight-crossing slot is run through the very same
lexicographic window comparisons as any other slot — candidates are exactly
the barbers with an active, available window satisfying
`W.start ≤ reqStartStr ∧ W.end ≥ reqEndStr` (on the date or weekday path) —
and since `reqEndStr` is small for such slots, those comparisons can succeed,
so midnight-crossing slots can (spuriously) yield candidates rather than
never matching. -/
theorem midnight_slot_same_comparisons (store : Store) (service_id : String)
    (dt : NaiveDateTime) (service : Service) (b : Barber)
    (hs : store.services.find? (fun s => s.id == service_id) = some service)
    (_hcross : sqliteLt (timeOfDayStr (addMinutes dt service.duration_minutes))
      (timeOfDayStr dt) = true)
    (hb : b ∈ store.barbers) :
    ∃ l, get_available_barbers store service_id dt = Except.ok l ∧
      (b ∈ l ↔ specCandidate store service_id dt service b) :=
  mem_available_iff store service_id dt service b hs hb

theorem midnight_slot_same_comparisons_witness :
    sqliteLt (timeOfDayStr (addMinutes c1dt c1service.duration_minutes))
      (timeOfDayStr c1dt) = true ∧
    ∃ l, get_available_barbers c1store "s1" c1dt = Except.ok l ∧ c1barber ∈ l := by
  refine ⟨rfl, ?_⟩
  obtain ⟨l, hl, hiff⟩ := midnight_slot_same_comparisons c1store "s1" c1dt c1service
    c1barber rfl rfl (List.mem_singleton.mpr rfl)
  exact ⟨l, hl, hiff.mpr (by decide)⟩

/-- Claim C2, counterexample: the service row "s1" exists but is inactive,
and `get_available_barbers` still resolves it and answers with a (here empty)
barber list — the claim says an inactive service gives NotFound. -/
theorem inactive_service_still_resolves :
    c2service.is_active = false ∧ c2service ∈ c2store.services ∧
    get_available_barbers c2store "s1" c2dt = Except.ok [] :=
  ⟨rfl, List.mem_singleton.mpr rfl, rfl⟩

/-- Claim C2 (amended): `get_available_barbers` fails with NotFound exactly
when no `services` row at all has the requested id — the query
`SELECT duration_minutes FROM services WHERE id = ?` never consults the
active flag, so an existing-but-inactive service yields a normal barber
list. -/
theorem resolver_notfound_iff_no_service_row (store : Store) (service_id : String)
    (dt : NaiveDateTime) :
    get_available_barbers store service_id dt =
        Except.error (ApiError.notFound "Service not found") ↔
      store.services.find? (fun s => s.id == service_id) = none := by
  cases h : store.services.find? (fun s => s.id == service_id) with
  | none => simp [get_available_barbers, h]
  | some s => simp [get_available_barbers, h]

/-- Claim C3: with a resolvable service, a barber appears in the result of
`get_available_barbers` iff it is active, offers the service, and owns an
active, available window matching the slot on the specific-date path or the
weekday path (`specCandidate` states the spec's §4.2.4 predicate verbatim,
with the day-of-week computed by the code's Sunday-0 shift). -/
theorem candidate_iff_matching_window (store : Store) (service_id : String)
    (dt : NaiveDateTime) (service : Service) (b : Barber)
    (hs : store.services.find? (fun s => s.id == service_id) = some service)
    (hb : b ∈ store.barbers) :
    ∃ l, get_available_barbers store service_id dt = Except.ok l ∧
      (b ∈ l ↔ specCandidate store service_id dt service b) :=
  mem_available_iff store service_id dt service b hs hb

theorem candidate_iff_matching_window_witness :
    (pyWeekday c3dt + 1) % 7 = 0 ∧
    ∃ l, get_available_barbers c3store "s1" c3dt = Except.ok l ∧ c3barber ∈ l := by
  refine ⟨rfl, ?_⟩
  obtain ⟨l, hl, hiff⟩ := candidate_iff_matching_window c3store "s1" c3dt c3service
    c3barber rfl (List.mem_singleton.mpr rfl)
  exact ⟨l, hl, hiff.mpr (by decide)⟩

/-- Full behavior of `create_reservation` on the happy path: with all four
fields truthy, both lookups resolving and the timestamp parsing, the result
is the denormalized view and exactly one appended row, both with
`end = start + duration_minutes` and status PENDING. -/
lemma create_reservation_spec (store : Store) (rid : String)
    (input : CreateReservationInput) (service : Service) (barber : Barber)
    (start_dt : PyDateTime)
    (hv : (truthy input.customerName && truthy input.serviceId &&
           truthy input.barberId && truthy input.startTime) = true)
    (hs : store.services.find? (fun s => s.id == input.serviceId.getD "") = some service)
    (hb : store.barbers.find? (fun b => b.id == input.barberId.getD "") = some barber)
    (hp : pyFromIsoformat (stripZ (input.startTime.getD "")) = some start_dt) :
    create_reservation store rid input =
      (Except.ok
        { id := rid, customer_name := input.customerName.getD "",
          service_name := service.name, barber_name := barber.name,
          start_time := pyIsoformat start_dt,
          end_time := pyIsoformat (pyAddMinutes start_dt service.duration_minutes),
          status := "PENDING" },
       { store with
          reservations := store.reservations ++
                            [{ id := rid, customer_name := input.customerName.getD "",
                               customer_email := none, customer_phone := none,
                               service_id := input.serviceId.getD "",
                               barber_id := input.barberId.getD "",
                               start_time := pyIsoformat start_dt,
                               end_time := pyIsoformat
                                 (pyAddMinutes start_dt service.duration_minutes),
                               status := some "PENDING", notes := none }] }) := by
  simp [create_reservation, hv, hs, hb, hp]

def c4service : Service := ⟨"fade", "Fade", "Degradado moderno y preciso", 45, "premium", true⟩

def c4barber : Barber := ⟨"b1", "Carlos", "carlos@example.com", none, none, true⟩

def c4store : Store := ⟨[c4service], [c4barber], [], [], []⟩

def c4input : CreateReservationInput :=
  ⟨some "Ana", some "fade", some "b1", some "2024-03-01T10:00:00"⟩

/-- Claim C4: a `create_reservation` call that passes validation, resolves
both ids and parses its timestamp persists and returns a reservation whose
end time is the start time plus the service's duration in minutes, with
status PENDING, and whose returned view carries the resolved service and
barber names. -/
theorem createReservation_end_status_view (store : Store) (rid : String)
    (input : CreateReservationInput) (service : Service) (barber : Barber)
    (start_dt : PyDateTime)
    (hv : (truthy input.customerName && truthy input.serviceId &&
           truthy input.barberId && truthy input.startTime) = true)
    (hs : store.services.find? (fun s => s.id == input.serviceId.getD "") = some service)
    (hb : store.barbers.find? (fun b => b.id == input.barberId.getD "") = some barber)
    (hp : pyFromIsoformat (stripZ (input.startTime.getD "")) = some start_dt) :
    create_reservation store rid input =
      (Except.ok
        { id := rid, customer_name := input.customerName.getD "",
          service_name := service.name, barber_name := barber.name,
          start_time := pyIsoformat start_dt,
          end_time := pyIsoformat (pyAddMinutes start_dt service.duration_minutes),
          status := "PENDING" },
       { store with
          reservations := store.reservations ++
                            [{ id := rid, customer_name := input.customerName.getD "",
                               customer_email := none, customer_phone := none,
                               service_id := input.serviceId.getD "",
                               barber_id := input.barberId.getD "",
                               start_time := pyIsoformat start_dt,
                               end_time := pyIsoformat
                                 (pyAddMinutes start_dt service.duration_minutes),
                               status := some "PENDING", notes := none }] }) :=
  create_reservation_spec store rid input service barber start_dt hv hs hb hp

/-- Booking "fade" (duration 45) at 2024-03-01T10:00:00 yields end
2024-03-01T10:45:00 and status PENDING, with the resolved names. -/
theorem createReservation_end_status_view_witness :
    (create_reservation c4store "r4" c4input).fst =
      Except.ok { id := "r4", customer_name := "Ana", service_name := "Fade",
                  barber_name := "Carlos", start_time := "2024-03-01T10:00:00",
                  end_time := "2024-03-01T10:45:00", status := "PENDING" } := by
  rw [createReservation_end_status_view c4store "r4" c4input c4service c4barber
    ⟨⟨2024, 3, 1, 10, 0, 0⟩, none⟩ rfl rfl rfl rfl]
  rfl

def c5input : CreateReservationInput :=
  ⟨some "Ana", some "fade", some "b1", some "2024-03-01T10:00:00+05:00"⟩

/-- Claim C5, counterexample: for a startTime carrying the UTC offset
"+05:00", `create_reservation` does not strip the offset (only the literal
"Z" is removed): the offset is parsed, kept through the arithmetic, and the
returned view's timestamps carry the "+05:00" suffix — the claim says every
offset marker is stripped and the view is suffix-free. -/
theorem offset_suffix_retained :
    (create_reservation c4store "r5" c5input).fst =
      Except.ok { id := "r5", customer_name := "Ana", service_name := "Fade",
                  barber_name := "Carlos", start_time := "2024-03-01T10:00:00+05:00",
                  end_time := "2024-03-01T10:45:00+05:00", status := "PENDING" } :=
  rfl

/-- `isoformat` of a datetime with no offset attached appends nothing. -/
lemma pyIsoformat_of_naive (p : PyDateTime) (h : p.tz = none) :
    pyIsoformat p = isoformatNaive p.dt := by
  obtain ⟨d, tz⟩ := p
  subst h
  show isoformatNaive d ++ "" = isoformatNaive d
  exact String.append_empty _

/-- Claim C5 (amended): `create_reservation` removes only the literal "Z"
from startTime and parses the remainder without any timezone conversion;
when the remainder carries no numeric UTC offset, the parse is naive and the
returned view's start/end timestamps are plain ISO-8601 strings with no
timezone suffix (a numeric offset such as +05:00 is instead retained and
reappears in the view). -/
theorem naive_start_roundtrips_without_suffix (store : Store) (rid : String)
    (input : CreateReservationInput) (service : Service) (barber : Barber)
    (start_dt : PyDateTime)
    (hv : (truthy input.customerName && truthy input.serviceId &&
           truthy input.barberId && truthy input.startTime) = true)
    (hs : store.services.find? (fun s => s.id == input.serviceId.getD "") = some service)
    (hb : store.barbers.find? (fun b => b.id == input.barberId.getD "") = some barber)
    (hp : pyFromIsoformat (stripZ (input.startTime.getD "")) = some start_dt)
    (hnaive : start_dt.tz = none) :
    ∃ view store', create_reservation store rid input = (Except.ok view, store') ∧
      view.start_time = isoformatNaive start_dt.dt ∧
      view.end_time = isoformatNaive (addMinutes start_dt.dt service.duration_minutes) := by
  refine ⟨_, _, create_reservation_spec store rid input service barber start_dt hv hs hb hp,
    pyIsoformat_of_naive start_dt hnaive, ?_⟩
  exact pyIsoformat_of_naive (pyAddMinutes start_dt service.duration_minutes)
    (by simp [pyAddMinutes, hnaive])

/-- The "Z" suffix is removed and a Z-suffixed timestamp round-trips with no
timezone marker. -/
theorem naive_start_roundtrips_without_suffix_witness :
    ∃ view store',
      create_reservation c4store "r5w"
          ⟨some "Ana", some "fade", some "b1", some "2024-03-01T10:00:00Z"⟩ =
        (Except.ok view, store') ∧
      view.start_time = "2024-03-01T10:00:00" ∧
      view.end_time = "2024-03-01T10:45:00" := by
  exact naive_start_roundtrips_without_suffix c4store "r5w"
    ⟨some "Ana", some "fade", some "b1", some "2024-03-01T10:00:00Z"⟩
    c4service c4barber ⟨⟨2024, 3, 1, 10, 0, 0⟩, none⟩ rfl rfl rfl rfl rfl

/-- Claim C6: `create_reservation` fails with ValidationError exactly when at
least one of customerName/serviceId/barberId/startTime is missing (`none`)
or empty, i.e. not truthy — and on that failure the store is unchanged (no
insert happens). -/
theorem validation_error_iff_missing_field (store : Store) (rid : String)
    (input : CreateReservationInput) :
    ((create_reservation store rid input).fst = Except.error ApiError.validationError ↔
      ¬(truthy input.customerName = true ∧ truthy input.serviceId = true ∧
        truthy input.barberId = true ∧ truthy input.startTime = true)) ∧
    ((create_reservation store rid input).fst = Except.error ApiError.validationError →
      (create_reservation store rid input).snd = store) := by
  cases hX : (truthy input.customerName && truthy input.serviceId &&
      truthy input.barberId && truthy input.startTime) with
  | false =>
      have hres : create_reservation store rid input =
          (Except.error ApiError.validationError, store) := by
        simp [create_reservation, hX]
      refine ⟨⟨fun _ => ?_, fun _ => by rw [hres]⟩, fun _ => by rw [hres]⟩
      rintro ⟨h1, h2, h3, h4⟩
      rw [h1, h2, h3, h4] at hX
      simp at hX
  | true =>
      have hX' : truthy input.customerName = true ∧ truthy input.serviceId = true ∧
          truthy input.barberId = true ∧ truthy input.startTime = true := by
        simpa [Bool.and_eq_true, and_assoc] using hX
      have hne : (create_reservation store rid input).fst ≠
          Except.error ApiError.validationError := by
        simp only [create_reservation, hX, Bool.not_true, Bool.false_eq_true, if_false]
        cases h1 : store.services.find? (fun s => s.id == input.serviceId.getD "") with
        | none => simp
        | some s =>
            cases h2 : store.barbers.find? (fun b => b.id == input.barberId.getD "") with
            | none => simp
            | some b =>
                cases h3 : pyFromIsoformat (stripZ (input.startTime.getD "")) with
                | none => simp
                | some p => simp
      exact ⟨⟨fun h => absurd h hne, fun h => absurd hX' h⟩, fun h => absurd h hne⟩

/-- Claim C7: once validation passes, a missing service gives NotFound
"Service not found" (and this branch wins when the barber is missing too,
since the service is checked first), a present service with a missing barber
gives NotFound "Barber not found", and every NotFound outcome leaves the
store unchanged — no reservation row is inserted. -/
theorem notfound_checks_in_order (store : Store) (rid : String)
    (input : CreateReservationInput)
    (hv : (truthy input.customerName && truthy input.serviceId &&
           truthy input.barberId && truthy input.startTime) = true) :
    (store.services.find? (fun s => s.id == input.serviceId.getD "") = none →
      create_reservation store rid input =
        (Except.error (ApiError.notFound "Service not found"), store)) ∧
    (∀ service, store.services.find? (fun s => s.id == input.serviceId.getD "") = some service →
      store.barbers.find? (fun b => b.id == input.barberId.getD "") = none →
      create_reservation store rid input =
        (Except.error (ApiError.notFound "Barber not found"), store)) ∧
    (∀ msg, (create_reservation store rid input).fst = Except.error (ApiError.notFound msg) →
      (create_reservation store rid input).snd = store) := by
  refine ⟨?_, ?_, ?_⟩
  · intro h1
    simp [create_reservation, hv, h1]
  · intro service h1 h2
    simp [create_reservation, hv, h1, h2]
  · intro msg
    cases h1 : store.services.find? (fun s => s.id == input.serviceId.getD "") with
    | none => intro _; simp [create_reservation, hv, h1]
    | some s =>
        cases h2 : store.barbers.find? (fun b => b.id == input.barberId.getD "") with
        | none => intro _; simp [create_reservation, hv, h1, h2]
        | some b =>
            cases h3 : pyFromIsoformat (stripZ (input.startTime.getD "")) with
            | none => intro _; simp [create_reservation, hv, h1, h2, h3]
            | some p =>
                intro hmsg
                rw [create_reservation_spec store rid input s b p hv h1 h2 h3] at hmsg
                simp at hmsg

def c7store : Store := ⟨[], [], [], [], []⟩

def c7input : CreateReservationInput :=
  ⟨some "Ana", some "nope", some "ghost", some "2024-03-01T10:00:00"⟩

/-- With neither the service nor the barber resolvable, the error names the
service and nothing is inserted. -/
theorem notfound_checks_in_order_witness :
    create_reservation c7store "r7" c7input =
      (Except.error (ApiError.notFound "Service not found"), c7store) :=
  (notfound_checks_in_order c7store "r7" c7input rfl).1 rfl

/-- Claim C8: `update_reservation_status` reports success for every
reservation id and every status value; when no stored reservation has the
id, the store is unchanged (a silent no-op), and when one does, the given
status value is written as-is — no transition rule restricts it. -/
theorem updateStatus_always_success (store : Store) (rid : String)
    (status : Option String) :
    (update_reservation_status store rid status).fst = Except.ok () ∧
    ((∀ r ∈ store.reservations, r.id ≠ rid) →
      (update_reservation_status store rid status).snd = store) ∧
    (∀ r ∈ store.reservations, r.id = rid →
      { r with status := status } ∈ (update_reservation_status store rid status).snd.reservations) := by
  refine ⟨rfl, ?_, ?_⟩
  · intro h
    have hmap := map_update_of_no_match rid status store.reservations h
    simp only [update_reservation_status]
    rw [hmap]
  · intro r hr hid
    simp only [update_reservation_status]
    have hf : ({ r with status := status } : Reservation) =
        (fun x => if x.id == rid then { x with status := status } else x) r := by
      simp [hid]
    rw [hf]
    exact List.mem_map_of_mem _ hr

def c8reservation : Reservation :=
  ⟨"r1", "Ana", none, none, "fade", "b1", "2024-03-01T10:00:00",
   "2024-03-01T10:45:00", some "PENDING", none⟩

def c8store : Store := ⟨[], [], [], [], [c8reservation]⟩

/-- Updating a non-existent reservation id to CONFIRMED succeeds and leaves
the store untouched. -/
theorem updateStatus_always_success_witness :
    (update_reservation_status c8store "missing" (some "CONFIRMED")).fst = Except.ok () ∧
    (update_reservation_status c8store "missing" (some "CONFIRMED")).snd = c8store := by
  refine ⟨(updateStatus_always_success c8store "missing" (some "CONFIRMED")).1, ?_⟩
  exact (updateStatus_always_success c8store "missing" (some "CONFIRMED")).2.1 (by decide)

/-- Claim C9: `delete_availability` is idempotent — both calls succeed and
the second deletion of the same id (in particular of an id that no longer
exists, or never did) changes nothing. -/
theorem removeWindow_idempotent (store : Store) (aid : String) :
    (delete_availability store aid).fst = Except.ok () ∧
    (delete_availability (delete_availability store aid).snd aid).fst = Except.ok () ∧
    (delete_availability (delete_availability store aid).snd aid).snd =
      (delete_availability store aid).snd := by
  refine ⟨rfl, rfl, ?_⟩
  simp only [delete_availability]
  rw [filter_self_idem]

/-- Claim C10: the existence checks of `create_reservation` ignore the
active flag — rows merely have to be present (`service ∈ store.services`,
`barber ∈ store.barbers`, nothing about `is_active`), and then the
reservation is created; NotFound arises only from absent rows. -/
theorem create_ignores_active_flags (store : Store) (rid : String)
    (input : CreateReservationInput) (service : Service) (barber : Barber)
    (start_dt : PyDateTime)
    (hv : (truthy input.customerName && truthy input.serviceId &&
           truthy input.barberId && truthy input.startTime) = true)
    (hsMem : service ∈ store.services) (hsId : service.id = input.serviceId.getD "")
    (hbMem : barber ∈ store.barbers) (hbId : barber.id = input.barberId.getD "")
    (hp : pyFromIsoformat (stripZ (input.startTime.getD "")) = some start_dt) :
    ∃ view store', create_reservation store rid input = (Except.ok view, store') ∧
      store'.reservations.length = store.reservations.length + 1 := by
  have hs' : (store.services.find? (fun s => s.id == input.serviceId.getD "")).isSome := by
    rw [List.find?_isSome]
    exact ⟨service, hsMem, by simp [hsId]⟩
  obtain ⟨s, hs⟩ := Option.isSome_iff_exists.mp hs'
  have hb' : (store.barbers.find? (fun b => b.id == input.barberId.getD "")).isSome := by
    rw [List.find?_isSome]
    exact ⟨barber, hbMem, by simp [hbId]⟩
  obtain ⟨b, hb⟩ := Option.isSome_iff_exists.mp hb'
  refine ⟨_, _, create_reservation_spec store rid input s b start_dt hv hs hb hp, ?_⟩
  simp

def c10service : Service := ⟨"s1", "Fade", "Degradado moderno y preciso", 45, "premium", false⟩

def c10barber : Barber := ⟨"b1", "Carlos", "carlos@example.com", none, none, false⟩

def c10store : Store := ⟨[c10service], [c10barber], [], [], []⟩

def c10input : CreateReservationInput :=
  ⟨some "Ana", some "s1", some "b1", some "2024-03-01T10:00:00"⟩

/-- A reservation is created against a service and a barber whose active
flags are both false. -/
theorem create_ignores_active_flags_witness :
    c10service.is_active = false ∧ c10barber.is_active = false ∧
    ∃ view store', create_reservation c10store "r10" c10input = (Except.ok view, store') ∧
      store'.reservations.length = c10store.reservations.length + 1 := by
  refine ⟨rfl, rfl, ?_⟩
  exact create_ignores_active_flags c10store "r10" c10input c10service c10barber
    ⟨⟨2024, 3, 1, 10, 0, 0⟩, none⟩ rfl (List.mem_singleton.mpr rfl) rfl
    (List.mem_singleton.mpr rfl) rfl rfl
